import Mathlib

/-!
Verification of the Solarman/Deye integration core against its
natural-language specification.

The development shallowly embeds the Python sources
`custom_components/solarman_deye/server.py`,
`custom_components/solarman_deye/coordinator.py` and
`custom_components/solarman_deye/const.py`:

* byte strings become `List Nat` (each entry one byte),
* Python dicts keyed by register address become `Nat → Option Nat`,
* the telemetry dict becomes `String → Option Value`,
* Python's float arithmetic is modelled by exact rational arithmetic
  (`Rat`), with `round(x, n)` modelled as round-half-to-even on
  rationals, matching Python's `round` on exact values,
* fallible transport calls become `Except`-valued environments that a
  caller supplies.
-/

namespace SolarmanDeye

/- ------------------------------------------------------------------ -/
/- Byte-level helpers (struct.unpack / bytes indexing)                 -/
/- ------------------------------------------------------------------ -/

/-- `byteAt d i` is `d[i]`, defaulting to 0 out of range (all uses in the
embedded code are bounds-checked first, mirroring the Python source). -/
def byteAt : List Nat → Nat → Nat
  | [], _ => 0
  | b :: _, 0 => b
  | _ :: l, i + 1 => byteAt l i

/-- `struct.unpack_from("<H", d, i)`: little-endian 16-bit read. -/
def read16LE (d : List Nat) (i : Nat) : Nat :=
  byteAt d i + 256 * byteAt d (i + 1)

/-- `struct.unpack_from("<I", d, i)`: little-endian 32-bit read. -/
def read32LE (d : List Nat) (i : Nat) : Nat :=
  byteAt d i + 256 * byteAt d (i + 1) + 65536 * byteAt d (i + 2)
    + 16777216 * byteAt d (i + 3)

/-- Big-endian 16-bit read, for `struct.unpack(">...H", d)`. -/
def read16BE (d : List Nat) (i : Nat) : Nat :=
  256 * byteAt d i + byteAt d (i + 1)

/-- First index of byte `b` in `l` (`bytes.find` without a start). -/
def findByte : List Nat → Nat → Option Nat
  | [], _ => none
  | x :: l, b => if x = b then some 0 else (findByte l b).map (· + 1)

/- ------------------------------------------------------------------ -/
/- server.py: V5 frame codec                                           -/
/- ------------------------------------------------------------------ -/

def V5_START : Nat := 0xA5
def V5_END : Nat := 0x15
def FRAME_HEARTBEAT : Nat := 0x47
def FRAME_DATA : Nat := 0x42
def FRAME_HELLO : Nat := 0x41
def MIN_FRAME_SIZE : Nat := 14
def HEADER_SIZE : Nat := 12

/-- A decoded frame: `(frame_type, logger_serial, payload)`. -/
abbrev V5Frame := Nat × Nat × List Nat

/-- `data.find(V5_START, pos)`: index of the first start marker at or
after `pos`, `none` when there is none (Python returns -1). -/
def findStart (data : List Nat) (pos : Nat) : Option Nat :=
  (findByte (data.drop pos) V5_START).map (· + pos)

/-- The body of `_parse_v5_frames`' `while pos < len(data)` loop, with
explicit fuel for termination.  Each iteration either stops (`break` /
loop exit) or continues at a strictly larger position, so fuel
`data.length + 1` is always enough. -/
def parseLoop (data : List Nat) : Nat → Nat → List V5Frame
  | 0, _ => []
  | fuel + 1, pos =>
    if pos < data.length then
      match findStart data pos with
      | none => []
      | some start =>
        if data.length < start + MIN_FRAME_SIZE then []
        else
          -- length field (2 bytes LE at offset 1)
          let length := read16LE data (start + 1)
          -- total = start(1) + length_field(2) + length + checksum(1) + end(1)
          let frameSize := 1 + 2 + length + 1 + 1
          if data.length < start + frameSize then []
          else
            let frame := (data.drop start).take frameSize
            if byteAt frame (frameSize - 1) ≠ V5_END then
              parseLoop data fuel (start + 1)
            else if byteAt frame (frameSize - 2) ≠
                (frame.take (frameSize - 2)).sum % 256 then
              parseLoop data fuel (start + 1)
            else
              let serial := read32LE frame 7
              let frameType := byteAt frame 11
              let payload := (frame.drop HEADER_SIZE).take (frameSize - 2 - HEADER_SIZE)
              (frameType, serial, payload) :: parseLoop data fuel (start + frameSize)
    else []

/-- `_parse_v5_frames` restarted at an arbitrary scan position. -/
def parseFrom (data : List Nat) (pos : Nat) : List V5Frame :=
  parseLoop data (data.length + 1) pos

/-- `_parse_v5_frames(data)`: extract V5 frames from a raw byte stream. -/
def parse_v5_frames (data : List Nat) : List V5Frame :=
  parseFrom data 0

/-- `_build_v5_ack(frame_type, serial, sequence)`.  The `struct.pack`
calls are inlined: `pack("<H", x)` is `[x % 256, x / 256 % 256]` and
`pack("<I", x)` its 4-byte analogue. -/
def build_v5_ack (frameType serial sequence : Nat) : List Nat :=
  let body : List Nat :=
    [V5_START,
     11, 0,                                -- struct.pack("<H", 11)
     0x10, 0x10,                           -- struct.pack("<H", 0x1010)
     sequence % 256, sequence / 256 % 256, -- struct.pack("<H", sequence)
     serial % 256, serial / 256 % 256,     -- struct.pack("<I", serial)
     serial / 65536 % 256, serial / 16777216 % 256,
     frameType,
     0x01,                                 -- status: OK
     0x00]                                 -- padding
  body ++ [body.sum % 256, V5_END]

/-- The per-connection read loop of `SolarmanV5Server._handle_client`,
restricted to its frame-decoding effect: each `reader.read(4096)` chunk
is passed to `_parse_v5_frames` on its own, and the decoded frames of
all iterations are processed in order.  No bytes are carried over from
one read to the next. -/
def handleClientFrames (chunks : List (List Nat)) : List V5Frame :=
  (chunks.map parse_v5_frames).flatten

/- ------------------------------------------------------------------ -/
/- server.py: register extraction from a data-push payload             -/
/- ------------------------------------------------------------------ -/

/-- Register maps (`dict[int, int]`) as partial functions. -/
abbrev RegMap := Nat → Option Nat

def emptyRegs : RegMap := fun _ => none

/-- `regs[k] = v` on a dict. -/
def regsInsert (m : RegMap) (k v : Nat) : RegMap :=
  fun a => if a = k then some v else m a

/-- `for i, val in enumerate(values): regs[start + i] = val` where the
values are 16-bit big-endian words of `dataBytes`
(`struct.unpack(">{n}H", ...)`). -/
def insertWordsBE (m : RegMap) (start n : Nat) (dataBytes : List Nat) : RegMap :=
  (List.range n).foldl (fun acc i => regsInsert acc (start + i) (read16BE dataBytes (2 * i))) m

/-- `_try_raw_register_parse(data)`: raw big-endian 16-bit dump starting
at register 0. -/
def try_raw_register_parse (data : List Nat) : RegMap :=
  if data.length < 4 then emptyRegs
  else insertWordsBE emptyRegs 0 (data.length / 2) data

/-- `_extract_registers_from_payload(payload)`. -/
def extract_registers_from_payload (payload : List Nat) : RegMap :=
  if payload.length < 16 then emptyRegs
  else
    -- Skip status(1) + sensor_type(2) + times(12) = 15 bytes
    let modbus := payload.drop 15
    if modbus.length < 5 then emptyRegs
    else
      let function := byteAt modbus 1
      let byte_count := byteAt modbus 2
      if function ≠ 0x03 ∧ function ≠ 0x04 then
        -- Not a standard read response: try raw register dump
        try_raw_register_parse modbus
      else
        let data_bytes := (modbus.drop 3).take byte_count
        if data_bytes.length < byte_count then emptyRegs
        else
          let num_regs := byte_count / 2
          -- Heuristic: start register from the byte count
          let start_reg :=
            if 90 ≤ num_regs then 59
            else if 50 ≤ num_regs then 59
            else if 40 ≤ num_regs then 150
            else 59
          insertWordsBE emptyRegs start_reg num_regs data_bytes

/- ------------------------------------------------------------------ -/
/- coordinator.py / const.py: register tables                          -/
/- ------------------------------------------------------------------ -/

/-- One entry of a 16-bit register table: the fields of the const.py
tuples that `_parse` consumes (`reg, name, *_, scale, precision,
signed`); the unit/device-class/state-class fields are never read by the
decode path and are omitted.  `name = none` is the skipped placeholder
entry; its unused scale is modelled as 0. -/
structure RegDef where
  reg : Nat
  name : Option String
  scale : Rat
  precision : Nat
  signed : Bool
deriving DecidableEq

/-- One entry of the 32-bit total-energy table
(`low_register, high_register, name, *_, scale, precision`). -/
structure TotalDef where
  low : Nat
  high : Nat
  name : String
  scale : Rat
  precision : Nat
deriving DecidableEq

def REGISTERS_PV : List RegDef :=
  [⟨109, some "PV1 Voltage", 0.1, 1, false⟩,
   ⟨110, some "PV1 Current", 0.1, 1, false⟩,
   ⟨186, some "PV1 Power", 1, 0, false⟩,
   ⟨111, some "PV2 Voltage", 0.1, 1, false⟩,
   ⟨112, some "PV2 Current", 0.1, 1, false⟩,
   ⟨187, some "PV2 Power", 1, 0, false⟩]

def REGISTERS_BATTERY : List RegDef :=
  [⟨184, some "Battery SOC", 1, 0, false⟩,
   ⟨183, some "Battery Voltage", 0.01, 2, false⟩,
   ⟨184, none, 0, 0, false⟩,  -- placeholder, SOC already read
   ⟨190, some "Battery Current", 0.01, 2, true⟩,
   ⟨191, some "Battery Power", 1, 0, true⟩,
   ⟨182, some "Battery Temperature", 0.1, 1, false⟩]

def REGISTERS_GRID : List RegDef :=
  [⟨150, some "Grid Voltage", 0.1, 1, false⟩,
   ⟨160, some "Grid Current", 0.01, 2, true⟩,
   ⟨169, some "Grid Power", 1, 0, true⟩,
   ⟨79, some "Grid Frequency", 0.01, 2, false⟩,
   ⟨172, some "Grid CT Power", 1, 0, true⟩]

def REGISTERS_LOAD : List RegDef :=
  [⟨178, some "Load Power", 1, 0, false⟩,
   ⟨192, some "Load Frequency", 0.01, 2, false⟩]

def REGISTERS_INVERTER : List RegDef :=
  [⟨175, some "Inverter Power", 1, 0, true⟩,
   ⟨154, some "Inverter Voltage", 0.1, 1, false⟩,
   ⟨164, some "Inverter Current", 0.01, 2, false⟩,
   ⟨193, some "Inverter Frequency", 0.01, 2, false⟩]

def REGISTERS_TEMPERATURE : List RegDef :=
  [⟨90, some "DC Transformer Temperature", 0.1, 1, true⟩,
   ⟨91, some "Radiator Temperature", 0.1, 1, true⟩,
   ⟨95, some "Ambient Temperature", 0.1, 1, true⟩]

def REGISTERS_ENERGY_DAILY : List RegDef :=
  [⟨108, some "Daily PV Energy", 0.1, 1, false⟩,
   ⟨70, some "Daily Battery Charge Energy", 0.1, 1, false⟩,
   ⟨71, some "Daily Battery Discharge Energy", 0.1, 1, false⟩,
   ⟨76, some "Daily Grid Import Energy", 0.1, 1, false⟩,
   ⟨77, some "Daily Grid Export Energy", 0.1, 1, false⟩,
   ⟨84, some "Daily Load Energy", 0.1, 1, false⟩]

def REGISTERS_ENERGY_TOTAL : List TotalDef :=
  [⟨96, 97, "Total PV Energy", 0.1, 1⟩,
   ⟨72, 73, "Total Battery Charge Energy", 0.1, 1⟩,
   ⟨74, 75, "Total Battery Discharge Energy", 0.1, 1⟩,
   ⟨78, 79, "Total Grid Import Energy", 0.1, 1⟩,
   ⟨81, 82, "Total Grid Export Energy", 0.1, 1⟩,
   ⟨85, 86, "Total Load Energy", 0.1, 1⟩]

def REGISTERS_STATUS : List RegDef :=
  [⟨59, some "Running State", 1, 0, false⟩,
   ⟨194, some "Grid Connected Status", 1, 0, false⟩,
   ⟨60, some "Daily Active Energy", 0.1, 1, false⟩]

def RUNNING_STATES : List (Int × String) :=
  [(0, "Standby"), (1, "Self-check"), (2, "Normal"), (3, "Alarm"), (4, "Fault")]

def READ_BLOCKS : List (Nat × Nat) := [(59, 55), (150, 45)]

def DEVICE_INFO_BLOCK : Nat × Nat := (0, 16)

def DEVICE_TYPES : List (Nat × String) :=
  [(2, "String Inverter"), (3, "Single-Phase Hybrid"),
   (4, "Micro Inverter"), (5, "Three-Phase Hybrid")]

/- ------------------------------------------------------------------ -/
/- coordinator.py: register decoding (_signed / _parse)                -/
/- ------------------------------------------------------------------ -/

/-- `SolarmanDeyeCoordinator._signed`: convert unsigned 16-bit to signed. -/
def signed (value : Nat) : Int :=
  if 32768 ≤ value then (value : Int) - 65536 else value

/-- A telemetry value: Python float (modelled as an exact rational) or
string. -/
inductive Value where
  | num (q : Rat)
  | str (s : String)
deriving DecidableEq

/-- The telemetry dict built by `_parse`. -/
abbrev Snapshot := String → Option Value

def emptySnapshot : Snapshot := fun _ => none

/-- `data[k] = v` on the telemetry dict. -/
def setk (d : Snapshot) (k : String) (v : Value) : Snapshot :=
  fun a => if a = k then some v else d a

/-- Floor of a rational, computed from its reduced representation
(the denominator is always positive). -/
def ratFloor (x : Rat) : Int := Int.fdiv x.num x.den

/-- Python's `round` ties-to-even on an exact value. -/
def roundHalfEven (x : Rat) : Int :=
  if x - (ratFloor x : Rat) < 1 / 2 then ratFloor x
  else if 1 / 2 < x - (ratFloor x : Rat) then ratFloor x + 1
  else if ratFloor x % 2 = 0 then ratFloor x else ratFloor x + 1

/-- `round(x, p)` for a non-negative digit count `p`. -/
def pyRound (p : Nat) (x : Rat) : Rat :=
  (roundHalfEven (x * 10 ^ p) : Rat) / 10 ^ p

/-- Python `int()` on the (always integral, non-negative here) rationals
stored for the status registers: truncation toward zero
(`Int.tdiv` is T-division). -/
def ratToInt (x : Rat) : Int := Int.tdiv x.num x.den

/-- Calibration configuration handed to the coordinator. -/
structure CalibCfg where
  co2Factor : Rat
  batteryCapacity : Rat
  batteryRatedCycles : Rat
deriving DecidableEq

/-- One iteration of the generic 16-bit loop of `_parse`:
`val = self._signed(raw) if signed else raw; data[name] = round(val * scale, precision)`. -/
def groupStep (regs : RegMap) (d : Snapshot) (e : RegDef) : Snapshot :=
  match e.name with
  | none => d
  | some n =>
    match regs e.reg with
    | none => d
    | some raw =>
      let val : Rat := if e.signed then (signed raw : Rat) else (raw : Rat)
      setk d n (.num (pyRound e.precision (val * e.scale)))

/-- The generic 16-bit branch of `_parse` over one register group. -/
def applyGroup (group : List RegDef) (regs : RegMap) (data : Snapshot) : Snapshot :=
  group.foldl (groupStep regs) data

/-- One iteration of the battery loop of `_parse`, with the +1000-offset
special case for `"Battery Temperature"`. -/
def batteryStep (regs : RegMap) (d : Snapshot) (e : RegDef) : Snapshot :=
  match e.name with
  | none => d
  | some n =>
    match regs e.reg with
    | none => d
    | some raw =>
      if n = "Battery Temperature" then
        setk d n (.num (pyRound 1 (((raw : Rat) - 1000) * 0.1)))
      else
        let val : Rat := if e.signed then (signed raw : Rat) else (raw : Rat)
        setk d n (.num (pyRound e.precision (val * e.scale)))

/-- The battery loop of `_parse`. -/
def applyBattery (regs : RegMap) (data : Snapshot) : Snapshot :=
  REGISTERS_BATTERY.foldl (batteryStep regs) data

/-- One iteration of the 32-bit total-energy loop of `_parse`:
`combined = (high_val << 16) | low_val`. -/
def totalStep (regs : RegMap) (d : Snapshot) (t : TotalDef) : Snapshot :=
  match regs t.low, regs t.high with
  | some lowVal, some highVal =>
    let combined : Nat := (highVal <<< 16) ||| lowVal
    setk d t.name (.num (pyRound t.precision ((combined : Rat) * t.scale)))
  | _, _ => d

/-- The 32-bit total-energy loop of `_parse`. -/
def applyTotals (regs : RegMap) (data : Snapshot) : Snapshot :=
  REGISTERS_ENERGY_TOTAL.foldl (totalStep regs) data

/-- `RUNNING_STATES.get(raw_state, f"Unknown ({raw_state})")`. -/
def runningStateText (raw : Int) : String :=
  match RUNNING_STATES.lookup raw with
  | some s => s
  | none => "Unknown (" ++ toString raw ++ ")"

/-- Translate the numeric running state (always stored as a number just
before this step) to text. -/
def translateRunningState (data : Snapshot) : Snapshot :=
  match data "Running State" with
  | some (.num q) => setk data "Running State" (.str (runningStateText (ratToInt q)))
  | _ => data

/-- Translate grid-connected 0/1 to text. -/
def translateGridConnected (data : Snapshot) : Snapshot :=
  match data "Grid Connected Status" with
  | some (.num q) =>
    setk data "Grid Connected Status"
      (.str (if ratToInt q = 1 then "Connected" else "Disconnected"))
  | _ => data

/-- The CO2 derivation block of `_parse`. -/
def applyCO2 (cfg : CalibCfg) (data : Snapshot) : Snapshot :=
  let d1 :=
    match data "Daily PV Energy" with
    | some (.num q) => setk data "Daily CO2 Saved" (.num (pyRound 2 (q * cfg.co2Factor)))
    | _ => data
  match d1 "Total PV Energy" with
  | some (.num q) => setk d1 "Total CO2 Saved" (.num (pyRound 1 (q * cfg.co2Factor)))
  | _ => d1

/-- The battery cycle tracking block of `_parse`. -/
def applyBatteryCycles (cfg : CalibCfg) (data : Snapshot) : Snapshot :=
  match data "Total Battery Discharge Energy" with
  | some (.num q) =>
    if 0 < cfg.batteryCapacity then
      let cycles := q / cfg.batteryCapacity
      let health := max 0 (100 * (1 - cycles / cfg.batteryRatedCycles))
      setk (setk data "Battery Cycles" (.num (pyRound 1 cycles)))
        "Battery Health" (.num (pyRound 1 health))
    else data
  | _ => data

/-- The seven 16-bit register groups, in the order `_parse` visits them. -/
def SINGLE_GROUPS : List (List RegDef) :=
  [REGISTERS_PV, REGISTERS_GRID, REGISTERS_LOAD, REGISTERS_INVERTER,
   REGISTERS_TEMPERATURE, REGISTERS_ENERGY_DAILY, REGISTERS_STATUS]

/-- `SolarmanDeyeCoordinator._parse(regs)`. -/
def parse (cfg : CalibCfg) (regs : RegMap) : Snapshot :=
  let d0 := SINGLE_GROUPS.foldl (fun d g => applyGroup g regs d) emptySnapshot
  let d1 := applyBattery regs d0
  let d2 := applyTotals regs d1
  let d3 := translateRunningState d2
  let d4 := translateGridConnected d3
  let d5 := applyCO2 cfg d4
  applyBatteryCycles cfg d5

/- ------------------------------------------------------------------ -/
/- coordinator.py: polling, device info, refresh cycle                 -/
/- ------------------------------------------------------------------ -/

/-- A transport environment: answers one block-read request
`(start, count)` with the list of returned register values, or a
transport error (identified by a numeric code so that distinct failures
are distinguishable). -/
abbrev BlockReader := Nat × Nat → Except Nat (List Nat)

/-- Read the configured blocks in order, merging
`regs[start + i] = values[i]`; the first failing block aborts the
attempt. -/
def readBlocksGo (rb : BlockReader) : List (Nat × Nat) → RegMap → Except Nat RegMap
  | [], regs => .ok regs
  | block :: rest, regs =>
    match rb block with
    | .error e => .error e
    | .ok values =>
      readBlocksGo rb rest
        ((List.range values.length).foldl
          (fun m i => regsInsert m (block.fst + i) (values.getD i 0)) regs)

/-- One attempt of `_read_registers`' inner loop body: read every block
of `READ_BLOCKS` into one register map. -/
def attemptRead (rb : BlockReader) : Except Nat RegMap :=
  readBlocksGo rb READ_BLOCKS emptyRegs

/-- `SolarmanDeyeCoordinator._read_registers`, with the
`for attempt in range(1, 4)` loop unrolled: attempt `k` uses transport
environment `penv k`; the returned list records the `time.sleep(2)`
calls made between failed attempts, and the final component counts the
attempts made.  On three failures the *last* error is raised. -/
def read_registers (penv : Nat → BlockReader) : Except Nat RegMap × List Nat × Nat :=
  match attemptRead (penv 1) with
  | .ok regs => (.ok regs, [], 1)
  | .error _ =>
    match attemptRead (penv 2) with
    | .ok regs => (.ok regs, [2], 2)
    | .error _ =>
      match attemptRead (penv 3) with
      | .ok regs => (.ok regs, [2, 2], 3)
      | .error e => (.error e, [2, 2], 3)

/-- Coordinator state: the pushed-register slot, the last delivered data
(`self.data`, owned by the `DataUpdateCoordinator` base class), and the
one-shot device-identity fields. -/
structure CoordState where
  pushedRegisters : Option RegMap
  data : Option Snapshot
  deviceInfoRead : Bool
  deviceType : String
  firmwareVersion : Option String

/-- State at construction time. -/
def initState : CoordState :=
  { pushedRegisters := none, data := none, deviceInfoRead := false,
    deviceType := "Hybrid Inverter", firmwareVersion := none }

/-- `receive_pushed_data`: store the pushed map for the next update. -/
def receive_pushed_data (st : CoordState) (regs : RegMap) : CoordState :=
  { st with pushedRegisters := some regs }

/-- `DEVICE_TYPES.get(dev_code, f"Type {dev_code}")`. -/
def deviceTypeName (code : Nat) : String :=
  match DEVICE_TYPES.lookup code with
  | some s => s
  | none => "Type " ++ toString code

/-- `SolarmanDeyeCoordinator._read_device_info`, with the transport as
an environment.  Returns the new state together with the block request
issued (`none` when the latch suppressed the read).  An empty value list
makes `values[0]` raise `IndexError`, which the bare `except` swallows;
every failure leaves the identity fields untouched, and the latch is set
unconditionally after the `try` block. -/
def read_device_info (st : CoordState) (denv : BlockReader) :
    CoordState × Option (Nat × Nat) :=
  if st.deviceInfoRead then (st, none)
  else
    match denv DEVICE_INFO_BLOCK with
    | .error _ => ({ st with deviceInfoRead := true }, some DEVICE_INFO_BLOCK)
    | .ok values =>
      match values with
      | [] => ({ st with deviceInfoRead := true }, some DEVICE_INFO_BLOCK)
      | v0 :: _ =>
        ({ st with
            deviceType := deviceTypeName v0,
            firmwareVersion :=
              if 15 < values.length then
                some (toString (values.getD 13 0) ++ "." ++ toString (values.getD 14 0)
                  ++ "." ++ toString (values.getD 15 0))
              else st.firmwareVersion,
            deviceInfoRead := true },
         some DEVICE_INFO_BLOCK)

/-- What one refresh cycle did, beyond its result. -/
structure CycleLog where
  polled : Bool
  sleeps : List Nat
  attemptsUsed : Nat
  deviceInfoRequested : Option (Nat × Nat)
deriving DecidableEq

/-- `SolarmanDeyeCoordinator._async_update_data`.  `penv` supplies the
polling transport per attempt, `denv` the device-info transport.  The
error case is `UpdateFailed`. -/
def async_update_data (st : CoordState) (penv : Nat → BlockReader)
    (denv : BlockReader) (cfg : CalibCfg) :
    Except Unit Snapshot × CoordState × CycleLog :=
  match st.pushedRegisters with
  | some regs =>
    -- Use pushed data if the V5 server has received any.
    (.ok (parse cfg regs), { st with pushedRegisters := none },
     ⟨false, [], 0, none⟩)
  | none =>
    match read_registers penv with
    | (.error _, sleeps, used) =>
      match st.data with
      | none =>
        -- First refresh: tolerate the failure and return empty data.
        (.ok emptySnapshot, st, ⟨true, sleeps, used, none⟩)
      | some _ => (.error (), st, ⟨true, sleeps, used, none⟩)
    | (.ok regs, sleeps, used) =>
      if st.deviceInfoRead then
        (.ok (parse cfg regs), st, ⟨true, sleeps, used, none⟩)
      else
        let infoResult := read_device_info st denv
        (.ok (parse cfg regs), infoResult.fst, ⟨true, sleeps, used, infoResult.snd⟩)

/-- One scheduled refresh as run by the `DataUpdateCoordinator` host: on
success the returned snapshot becomes `self.data`. -/
def runCycle (st : CoordState) (penv : Nat → BlockReader) (denv : BlockReader)
    (cfg : CalibCfg) : Except Unit Snapshot × CoordState × CycleLog :=
  match async_update_data st penv denv cfg with
  | (.ok snap, st1, log) => (.ok snap, { st1 with data := some snap }, log)
  | (.error e, st1, log) => (.error e, st1, log)

/- ------------------------------------------------------------------ -/
/- Helper lemmas                                                       -/
/- ------------------------------------------------------------------ -/

/-- A scan position reported by `findStart` is at or after the start
position handed to it. -/
theorem findStart_ge {data : List Nat} {pos s : Nat}
    (h : findStart data pos = some s) : pos ≤ s := by
  unfold findStart at h
  cases hf : findByte (data.drop pos) V5_START with
  | none => rw [hf] at h; simp at h
  | some i => rw [hf] at h; simp at h; omega

/-- Once the scan position passes the end of the buffer the loop stops. -/
theorem parseLoop_stop (data : List Nat) (f pos : Nat) (h : data.length ≤ pos) :
    parseLoop data f pos = [] := by
  cases f with
  | zero => rfl
  | succ f => simp [parseLoop, if_neg (Nat.not_lt.mpr h)]

/-- The fuel is irrelevant as long as it exceeds the number of bytes left
to scan: every loop iteration advances the position by at least one. -/
theorem parseLoop_fuel (data : List Nat) :
    ∀ f1 f2 pos, data.length < pos + f1 → data.length < pos + f2 →
      parseLoop data f1 pos = parseLoop data f2 pos := by
  intro f1
  induction f1 with
  | zero =>
    intro f2 pos h1 h2
    rw [parseLoop_stop data 0 pos (by omega), parseLoop_stop data f2 pos (by omega)]
  | succ f ih =>
    intro f2 pos h1 h2
    cases f2 with
    | zero =>
      rw [parseLoop_stop data _ pos (by omega), parseLoop_stop data 0 pos (by omega)]
    | succ g =>
      by_cases hp : pos < data.length
      · simp only [parseLoop, if_pos hp]
        cases hfind : findStart data pos with
        | none => rfl
        | some start =>
          have hps : pos ≤ start := findStart_ge hfind
          by_cases h14 : data.length < start + MIN_FRAME_SIZE
          · simp [h14]
          · simp only [if_neg h14]
            by_cases hfs : data.length < start + (1 + 2 + read16LE data (start + 1) + 1 + 1)
            · simp only [if_pos hfs]
            · simp only [if_neg hfs]
              by_cases hend :
                  byteAt ((data.drop start).take (1 + 2 + read16LE data (start + 1) + 1 + 1))
                    (1 + 2 + read16LE data (start + 1) + 1 + 1 - 1) ≠ V5_END
              · simp only [if_pos hend]
                exact ih g (start + 1) (by omega) (by omega)
              · simp only [if_neg hend]
                by_cases hcs :
                    byteAt ((data.drop start).take (1 + 2 + read16LE data (start + 1) + 1 + 1))
                      (1 + 2 + read16LE data (start + 1) + 1 + 1 - 2) ≠
                    (((data.drop start).take (1 + 2 + read16LE data (start + 1) + 1 + 1)).take
                      (1 + 2 + read16LE data (start + 1) + 1 + 1 - 2)).sum % 256
                · simp only [if_pos hcs]
                  exact ih g (start + 1) (by omega) (by omega)
                · simp only [if_neg hcs]
                  exact congrArg _ (ih g (start + (1 + 2 + read16LE data (start + 1) + 1 + 1))
                    (by omega) (by omega))
      · rw [parseLoop_stop data _ pos (Nat.not_lt.1 hp),
          parseLoop_stop data _ pos (Nat.not_lt.1 hp)]

theorem byteAt_take (l : List Nat) :
    ∀ (n i : Nat), i < n → byteAt (l.take n) i = byteAt l i := by
  induction l with
  | nil => intro n i _; rw [List.take_nil]
  | cons b l ih =>
    intro n i h
    cases n with
    | zero => omega
    | succ n =>
      rw [List.take_succ_cons]
      cases i with
      | zero => rfl
      | succ i => exact ih n i (by omega)

/-- Pointwise description of the register map built by
`for i, val in enumerate(values): regs[start + i] = val`. -/
theorem insertWordsBE_lookup (db : List Nat) (start : Nat) :
    ∀ (n : Nat) (m : RegMap) (a : Nat),
      insertWordsBE m start n db a =
        if start ≤ a ∧ a < start + n then some (read16BE db (2 * (a - start)))
        else m a := by
  intro n
  induction n with
  | zero =>
    intro m a
    unfold insertWordsBE
    rw [List.range_zero, List.foldl_nil, if_neg (by omega)]
  | succ n ih =>
    intro m a
    unfold insertWordsBE
    rw [List.range_succ, List.foldl_append, List.foldl_cons, List.foldl_nil]
    unfold regsInsert
    by_cases ha : a = start + n
    · rw [if_pos ha, if_pos (by omega : start ≤ a ∧ a < start + (n + 1))]
      rw [show a - start = n by omega]
    · rw [if_neg ha]
      refine (ih m a).trans ?_
      by_cases h1 : start ≤ a ∧ a < start + n
      · rw [if_pos h1, if_pos (by omega : start ≤ a ∧ a < start + (n + 1))]
      · rw [if_neg h1, if_neg (by omega : ¬(start ≤ a ∧ a < start + (n + 1)))]

theorem setk_eq (d : Snapshot) (k : String) (v : Value) : setk d k v k = some v :=
  if_pos rfl

theorem setk_ne (d : Snapshot) (k : String) (v : Value) {a : String} (h : a ≠ k) :
    setk d k v a = d a :=
  if_neg h

/-- A 16-bit register fold leaves key `n` untouched when every entry
named `n` has its register absent from the map (in particular when no
entry is named `n` at all). -/
theorem foldGroup_none (regs : RegMap) (n : String) :
    ∀ (g : List RegDef) (d : Snapshot),
      (∀ e ∈ g, e.name = some n → regs e.reg = none) →
      g.foldl (groupStep regs) d n = d n := by
  intro g
  induction g with
  | nil => intro d _; rfl
  | cons e g ih =>
    intro d h
    rw [List.foldl_cons]
    rw [ih (groupStep regs d e) (fun x hx => h x (List.mem_cons_of_mem e hx))]
    unfold groupStep
    cases hn : e.name with
    | none => rfl
    | some m =>
      cases hr : regs e.reg with
      | none => rfl
      | some raw =>
        have hne : n ≠ m := by
          intro hcontra
          have := h e (List.mem_cons_self e g) (by rw [hn, hcontra])
          rw [this] at hr
          exact Option.noConfusion hr
        exact setk_ne _ _ _ hne

/-- The same preservation lemma for the battery fold. -/
theorem foldBattery_none (regs : RegMap) (n : String) :
    ∀ (g : List RegDef) (d : Snapshot),
      (∀ e ∈ g, e.name = some n → regs e.reg = none) →
      g.foldl (batteryStep regs) d n = d n := by
  intro g
  induction g with
  | nil => intro d _; rfl
  | cons e g ih =>
    intro d h
    rw [List.foldl_cons]
    rw [ih (batteryStep regs d e) (fun x hx => h x (List.mem_cons_of_mem e hx))]
    unfold batteryStep
    cases hn : e.name with
    | none => rfl
    | some m =>
      cases hr : regs e.reg with
      | none => rfl
      | some raw =>
        have hne : n ≠ m := by
          intro hcontra
          have := h e (List.mem_cons_self e g) (by rw [hn, hcontra])
          rw [this] at hr
          exact Option.noConfusion hr
        dsimp only
        by_cases hbt : m = "Battery Temperature"
        · rw [if_pos hbt]; exact setk_ne _ _ _ hne
        · rw [if_neg hbt]; exact setk_ne _ _ _ hne

/-- The 32-bit fold leaves key `n` untouched when every composite named
`n` is missing one of its two registers. -/
theorem foldTotals_none (regs : RegMap) (n : String) :
    ∀ (ts : List TotalDef) (d : Snapshot),
      (∀ t ∈ ts, t.name = n → regs t.low = none ∨ regs t.high = none) →
      ts.foldl (totalStep regs) d n = d n := by
  intro ts
  induction ts with
  | nil => intro d _; rfl
  | cons t ts ih =>
    intro d h
    rw [List.foldl_cons]
    rw [ih (totalStep regs d t) (fun x hx => h x (List.mem_cons_of_mem t hx))]
    unfold totalStep
    cases hl : regs t.low with
    | none => rfl
    | some lowVal =>
      cases hh : regs t.high with
      | none => rfl
      | some highVal =>
        have hne : n ≠ t.name := by
          intro hcontra
          rcases h t (List.mem_cons_self t ts) hcontra.symm with hc | hc
          · rw [hc] at hl; exact Option.noConfusion hl
          · rw [hc] at hh; exact Option.noConfusion hh
        exact setk_ne _ _ _ hne

/-- The 32-bit fold leaves key `n` untouched when no composite is named
`n`, whatever the register map holds. -/
theorem foldTotals_ne (regs : RegMap) (n : String) :
    ∀ (ts : List TotalDef) (d : Snapshot),
      (∀ t ∈ ts, t.name ≠ n) →
      ts.foldl (totalStep regs) d n = d n := by
  intro ts
  induction ts with
  | nil => intro d _; rfl
  | cons t ts ih =>
    intro d h
    rw [List.foldl_cons]
    rw [ih (totalStep regs d t) (fun x hx => h x (List.mem_cons_of_mem t hx))]
    unfold totalStep
    cases regs t.low with
    | none => rfl
    | some lowVal =>
      cases regs t.high with
      | none => rfl
      | some highVal =>
        exact setk_ne _ _ _ (fun hc => h t (List.mem_cons_self t ts) hc.symm)

/-- Writing a member composite whose two registers are both present: the
32-bit fold stores `round(((high << 16) | low) * scale, precision)`
under the composite's name, whatever snapshot it starts from, as long as
no other composite shares that name. -/
theorem foldTotals_write (regs : RegMap) :
    ∀ (ts : List TotalDef) (d : Snapshot) (t : TotalDef), t ∈ ts →
      (ts.map TotalDef.name).Nodup →
      ∀ low high, regs t.low = some low → regs t.high = some high →
      ts.foldl (totalStep regs) d t.name =
        some (.num (pyRound t.precision ((((high <<< 16) ||| low : Nat) : Rat) * t.scale))) := by
  intro ts
  induction ts with
  | nil => intro d t ht; exact absurd ht (List.not_mem_nil t)
  | cons t1 ts ih =>
    intro d t ht hnodup low high hl hh
    rw [List.foldl_cons]
    rcases List.mem_cons.1 ht with heq | hmem
    · subst heq
      have hne : ∀ t2 ∈ ts, t2.name ≠ t.name := by
        intro t2 ht2 hcontra
        exact (List.nodup_cons.1 hnodup).1 (List.mem_map.2 ⟨t2, ht2, hcontra⟩)
      rw [foldTotals_ne regs t.name ts (totalStep regs d t) hne]
      unfold totalStep
      rw [hl, hh]
      exact setk_eq _ _ _
    · exact ih (totalStep regs d t1) t hmem (List.nodup_cons.1 hnodup).2 low high hl hh

/-- The running-state translation only rewrites an existing entry. -/
theorem translateRunningState_none (d : Snapshot) (k : String) (h : d k = none) :
    translateRunningState d k = none := by
  unfold translateRunningState
  by_cases hk : k = "Running State"
  · rw [← hk, h]
    exact h
  · cases d "Running State" with
    | none => exact h
    | some v =>
      cases v with
      | num q => exact (setk_ne _ _ _ hk).trans h
      | str s => exact h

theorem translateRunningState_ne (d : Snapshot) {k : String}
    (hk : k ≠ "Running State") : translateRunningState d k = d k := by
  unfold translateRunningState
  cases d "Running State" with
  | none => rfl
  | some v =>
    cases v with
    | num q => exact setk_ne _ _ _ hk
    | str s => rfl

theorem translateGridConnected_none (d : Snapshot) (k : String) (h : d k = none) :
    translateGridConnected d k = none := by
  unfold translateGridConnected
  by_cases hk : k = "Grid Connected Status"
  · rw [← hk, h]
    exact h
  · cases d "Grid Connected Status" with
    | none => exact h
    | some v =>
      cases v with
      | num q => exact (setk_ne _ _ _ hk).trans h
      | str s => exact h

theorem translateGridConnected_ne (d : Snapshot) {k : String}
    (hk : k ≠ "Grid Connected Status") : translateGridConnected d k = d k := by
  unfold translateGridConnected
  cases d "Grid Connected Status" with
  | none => rfl
  | some v =>
    cases v with
    | num q => exact setk_ne _ _ _ hk
    | str s => rfl

/-- The CO2 block only ever writes the two CO2 keys. -/
theorem applyCO2_ne (cfg : CalibCfg) (d : Snapshot) {k : String}
    (h1 : k ≠ "Daily CO2 Saved") (h2 : k ≠ "Total CO2 Saved") :
    applyCO2 cfg d k = d k := by
  unfold applyCO2
  have hd1 : ∀ d1 : Snapshot, d1 =
      (match d "Daily PV Energy" with
       | some (.num q) => setk d "Daily CO2 Saved" (.num (pyRound 2 (q * cfg.co2Factor)))
       | _ => d) → d1 k = d k := by
    intro d1 hdef
    subst hdef
    cases d "Daily PV Energy" with
    | none => rfl
    | some v =>
      cases v with
      | num q => exact setk_ne _ _ _ h1
      | str s => rfl
  cases hm : (match d "Daily PV Energy" with
      | some (.num q) => setk d "Daily CO2 Saved" (.num (pyRound 2 (q * cfg.co2Factor)))
      | _ => d) "Total PV Energy" with
  | none => exact hd1 _ rfl
  | some v =>
    cases v with
    | num q => exact (setk_ne _ _ _ h2).trans (hd1 _ rfl)
    | str s => exact hd1 _ rfl

/-- Without a daily PV figure the CO2 block leaves `"Daily CO2 Saved"`
alone. -/
theorem applyCO2_daily_skip (cfg : CalibCfg) (d : Snapshot)
    (h : d "Daily PV Energy" = none) :
    applyCO2 cfg d "Daily CO2 Saved" = d "Daily CO2 Saved" := by
  unfold applyCO2
  rw [h]
  dsimp only
  cases d "Total PV Energy" with
  | none => rfl
  | some v =>
    cases v with
    | num q => exact setk_ne _ _ _ (by decide)
    | str s => rfl

/-- Without a total PV figure the CO2 block leaves `"Total CO2 Saved"`
alone. -/
theorem applyCO2_total_skip (cfg : CalibCfg) (d : Snapshot)
    (h : d "Total PV Energy" = none) :
    applyCO2 cfg d "Total CO2 Saved" = d "Total CO2 Saved" := by
  unfold applyCO2
  cases hd : d "Daily PV Energy" with
  | none =>
    dsimp only
    rw [h]
  | some v =>
    cases v with
    | num q =>
      dsimp only
      rw [setk_ne _ _ _ (by decide : "Total PV Energy" ≠ "Daily CO2 Saved"), h]
      exact setk_ne _ _ _ (by decide)
    | str s =>
      dsimp only
      rw [h]

/-- With a total PV figure present the CO2 block computes
`round(totalPV * co2, 1)` and does not disturb the total itself. -/
theorem applyCO2_total (cfg : CalibCfg) (d : Snapshot) (v : Rat)
    (h : d "Total PV Energy" = some (.num v)) :
    applyCO2 cfg d "Total CO2 Saved" = some (.num (pyRound 1 (v * cfg.co2Factor))) ∧
    applyCO2 cfg d "Total PV Energy" = some (.num v) := by
  unfold applyCO2
  cases hd : d "Daily PV Energy" with
  | none =>
    dsimp only
    rw [h]
    exact ⟨setk_eq _ _ _, (setk_ne _ _ _ (by decide)).trans h⟩
  | some w =>
    cases w with
    | num q =>
      dsimp only
      rw [setk_ne _ _ _ (by decide : "Total PV Energy" ≠ "Daily CO2 Saved"), h]
      constructor
      · exact setk_eq _ _ _
      · exact (setk_ne _ _ _ (by decide)).trans ((setk_ne _ _ _ (by decide)).trans h)
    | str s =>
      dsimp only
      rw [h]
      exact ⟨setk_eq _ _ _, (setk_ne _ _ _ (by decide)).trans h⟩

/-- The battery-cycles block only ever writes its two keys. -/
theorem applyBatteryCycles_ne (cfg : CalibCfg) (d : Snapshot) {k : String}
    (h1 : k ≠ "Battery Cycles") (h2 : k ≠ "Battery Health") :
    applyBatteryCycles cfg d k = d k := by
  unfold applyBatteryCycles
  cases d "Total Battery Discharge Energy" with
  | none => rfl
  | some v =>
    cases v with
    | num q =>
      dsimp only
      by_cases hc : 0 < cfg.batteryCapacity
      · rw [if_pos hc]
        exact (setk_ne _ _ _ h2).trans (setk_ne _ _ _ h1)
      · rw [if_neg hc]
    | str s => rfl

/-- Without a total-discharge figure the battery-cycles block is the
identity. -/
theorem applyBatteryCycles_skip (cfg : CalibCfg) (d : Snapshot)
    (h : d "Total Battery Discharge Energy" = none) :
    applyBatteryCycles cfg d = d := by
  unfold applyBatteryCycles
  rw [h]

/-- Preservation lemma for the outer fold over the seven 16-bit groups. -/
theorem foldSingles_none (regs : RegMap) (n : String) :
    ∀ (gs : List (List RegDef)) (d : Snapshot),
      (∀ g ∈ gs, ∀ e ∈ g, e.name = some n → regs e.reg = none) →
      gs.foldl (fun d g => applyGroup g regs d) d n = d n := by
  intro gs
  induction gs with
  | nil => intro d _; rfl
  | cons g gs ih =>
    intro d h
    rw [List.foldl_cons]
    rw [ih (applyGroup g regs d) (fun x hx => h x (List.mem_cons_of_mem g hx))]
    exact foldGroup_none regs n g d (h g (List.mem_cons_self g gs))

/-- `parse` written out as its stage composition. -/
theorem parse_eq (cfg : CalibCfg) (regs : RegMap) :
    parse cfg regs =
      applyBatteryCycles cfg (applyCO2 cfg (translateGridConnected
        (translateRunningState (applyTotals regs (applyBattery regs
          (SINGLE_GROUPS.foldl (fun d g => applyGroup g regs d) emptySnapshot)))))) :=
  rfl

/-- The first five stages of `_parse` leave key `n` unset whenever every
table entry that could write `n` is missing a required register. -/
theorem stages4_none (regs : RegMap) (n : String)
    (h1 : ∀ g ∈ SINGLE_GROUPS, ∀ e ∈ g, e.name = some n → regs e.reg = none)
    (h2 : ∀ e ∈ REGISTERS_BATTERY, e.name = some n → regs e.reg = none)
    (h3 : ∀ t ∈ REGISTERS_ENERGY_TOTAL, t.name = n →
      regs t.low = none ∨ regs t.high = none) :
    translateGridConnected (translateRunningState (applyTotals regs (applyBattery regs
      (SINGLE_GROUPS.foldl (fun d g => applyGroup g regs d) emptySnapshot)))) n = none := by
  apply translateGridConnected_none
  apply translateRunningState_none
  unfold applyTotals
  rw [foldTotals_none regs n _ _ h3]
  unfold applyBattery
  rw [foldBattery_none regs n _ _ h2]
  rw [foldSingles_none regs n _ _ h1]
  rfl

/-- `_parse` leaves key `n` unset whenever every table entry that could
write `n` is missing a required register and `n` is none of the four
derived keys. -/
theorem parse_none_of (cfg : CalibCfg) (regs : RegMap) (n : String)
    (h1 : ∀ g ∈ SINGLE_GROUPS, ∀ e ∈ g, e.name = some n → regs e.reg = none)
    (h2 : ∀ e ∈ REGISTERS_BATTERY, e.name = some n → regs e.reg = none)
    (h3 : ∀ t ∈ REGISTERS_ENERGY_TOTAL, t.name = n →
      regs t.low = none ∨ regs t.high = none)
    (h4 : n ≠ "Daily CO2 Saved") (h5 : n ≠ "Total CO2 Saved")
    (h6 : n ≠ "Battery Cycles") (h7 : n ≠ "Battery Health") :
    parse cfg regs n = none := by
  rw [parse_eq]
  rw [applyBatteryCycles_ne cfg _ h6 h7, applyCO2_ne cfg _ h4 h5]
  exact stages4_none regs n h1 h2 h3

/- Facts about the concrete register tables, all decidable. -/

theorem singles_name_unique : ∀ g1 ∈ SINGLE_GROUPS, ∀ e1 ∈ g1, ∀ g2 ∈ SINGLE_GROUPS,
    ∀ e2 ∈ g2, e1.name = e2.name → e1.name ≠ none → e1.reg = e2.reg := by decide

theorem battery_name_unique : ∀ e1 ∈ REGISTERS_BATTERY, ∀ e2 ∈ REGISTERS_BATTERY,
    e1.name = e2.name → e1.name ≠ none → e1.reg = e2.reg := by decide

theorem singles_battery_disjoint : ∀ g ∈ SINGLE_GROUPS, ∀ e1 ∈ g,
    ∀ e2 ∈ REGISTERS_BATTERY, e1.name = none ∨ e2.name ≠ e1.name := by decide

theorem singles_totals_disjoint : ∀ g ∈ SINGLE_GROUPS, ∀ e ∈ g,
    ∀ t ∈ REGISTERS_ENERGY_TOTAL, e.name ≠ some t.name := by decide

theorem battery_totals_disjoint : ∀ e ∈ REGISTERS_BATTERY,
    ∀ t ∈ REGISTERS_ENERGY_TOTAL, e.name ≠ some t.name := by decide

theorem totals_name_unique : ∀ t1 ∈ REGISTERS_ENERGY_TOTAL, ∀ t2 ∈ REGISTERS_ENERGY_TOTAL,
    t1.name = t2.name → t1.low = t2.low ∧ t1.high = t2.high := by decide

theorem singles_not_derived : ∀ g ∈ SINGLE_GROUPS, ∀ e ∈ g,
    e.name ≠ some "Daily CO2 Saved" ∧ e.name ≠ some "Total CO2 Saved" ∧
    e.name ≠ some "Battery Cycles" ∧ e.name ≠ some "Battery Health" := by decide

theorem battery_not_derived : ∀ e ∈ REGISTERS_BATTERY,
    e.name ≠ some "Daily CO2 Saved" ∧ e.name ≠ some "Total CO2 Saved" ∧
    e.name ≠ some "Battery Cycles" ∧ e.name ≠ some "Battery Health" := by decide

theorem totals_not_derived : ∀ t ∈ REGISTERS_ENERGY_TOTAL,
    t.name ≠ "Daily CO2 Saved" ∧ t.name ≠ "Total CO2 Saved" ∧
    t.name ≠ "Battery Cycles" ∧ t.name ≠ "Battery Health" := by decide

theorem totals_name_nodup : (REGISTERS_ENERGY_TOTAL.map TotalDef.name).Nodup := by decide

theorem totals_not_translated : ∀ t ∈ REGISTERS_ENERGY_TOTAL,
    t.name ≠ "Running State" ∧ t.name ≠ "Grid Connected Status" := by decide

theorem name_determines_daily_pv : ∀ g ∈ SINGLE_GROUPS, ∀ e ∈ g,
    e.name = some "Daily PV Energy" → e.reg = 108 := by decide

/-- The first five stages never write a key outside the register tables. -/
theorem stages4_nontable_none (regs : RegMap) (n : String)
    (hn1 : ∀ g ∈ SINGLE_GROUPS, ∀ e ∈ g, e.name ≠ some n)
    (hn2 : ∀ e ∈ REGISTERS_BATTERY, e.name ≠ some n)
    (hn3 : ∀ t ∈ REGISTERS_ENERGY_TOTAL, t.name ≠ n) :
    translateGridConnected (translateRunningState (applyTotals regs (applyBattery regs
      (SINGLE_GROUPS.foldl (fun d g => applyGroup g regs d) emptySnapshot)))) n = none := by
  apply stages4_none
  · intro g hg e he hn; exact absurd hn (hn1 g hg e he)
  · intro e he hn; exact absurd hn (hn2 e he)
  · intro t ht htn; exact absurd htn (hn3 t ht)

/-- The first five stages leave a composite's key unset when one of its
two registers is absent. -/
theorem stages4_total_none (regs : RegMap) (t : TotalDef)
    (ht : t ∈ REGISTERS_ENERGY_TOTAL)
    (hmiss : regs t.low = none ∨ regs t.high = none) :
    translateGridConnected (translateRunningState (applyTotals regs (applyBattery regs
      (SINGLE_GROUPS.foldl (fun d g => applyGroup g regs d) emptySnapshot)))) t.name = none := by
  apply stages4_none
  · intro g hg e he hn; exact absurd hn (singles_totals_disjoint g hg e he t ht)
  · intro e he hn; exact absurd hn (battery_totals_disjoint e he t ht)
  · intro t2 ht2 htn
    rcases totals_name_unique t2 ht2 t ht htn with ⟨hl, hh⟩
    rw [hl, hh]; exact hmiss

/-- With registers 96 and 97 both present, the 32-bit fold stores
`round(((high << 16) | low) * 0.1, 1)` under `"Total PV Energy"`. -/
theorem applyTotals_total_pv (regs : RegMap) (d : Snapshot) (low high : Nat)
    (hl : regs 96 = some low) (hh : regs 97 = some high) :
    applyTotals regs d "Total PV Energy" =
      some (.num (pyRound 1 ((((high <<< 16) ||| low : Nat) : Rat) * 0.1))) := by
  unfold applyTotals REGISTERS_ENERGY_TOTAL
  rw [List.foldl_cons]
  rw [foldTotals_ne regs "Total PV Energy" _ _ (by decide)]
  unfold totalStep
  dsimp only
  rw [hl, hh]
  exact setk_eq _ _ _

/-- A refresh with a pending pushed map returns its decode and clears
the slot, touching nothing else and running no transport call. -/
theorem async_push (st : CoordState) (penv : Nat → BlockReader) (denv : BlockReader)
    (cfg : CalibCfg) (m : RegMap) (hm : st.pushedRegisters = some m) :
    async_update_data st penv denv cfg =
      (.ok (parse cfg m), { st with pushedRegisters := none },
       ⟨false, [], 0, none⟩) := by
  unfold async_update_data
  rw [hm]

/-- `runCycle` on a pending pushed map additionally records the decoded
snapshot as `self.data`. -/
theorem runCycle_push (st : CoordState) (penv : Nat → BlockReader) (denv : BlockReader)
    (cfg : CalibCfg) (m : RegMap) (hm : st.pushedRegisters = some m) :
    runCycle st penv denv cfg =
      (.ok (parse cfg m),
       { st with pushedRegisters := none, data := some (parse cfg m) },
       ⟨false, [], 0, none⟩) := by
  unfold runCycle
  rw [async_push st penv denv cfg m hm]

/-- A refresh with an empty pushed slot always takes the polling path. -/
theorem async_polled (st : CoordState) (penv : Nat → BlockReader) (denv : BlockReader)
    (cfg : CalibCfg) (hm : st.pushedRegisters = none) :
    (async_update_data st penv denv cfg).2.2.polled = true := by
  unfold async_update_data
  rw [hm]
  dsimp only
  rcases hr : read_registers penv with ⟨res, sleeps, used⟩
  cases res with
  | error e =>
    dsimp only
    cases st.data with
    | none => rfl
    | some d => rfl
  | ok regs =>
    dsimp only
    by_cases hdi : st.deviceInfoRead = true
    · rw [if_pos hdi]
    · rw [if_neg hdi]

/-- The cycle log is not altered by the `self.data` bookkeeping. -/
theorem runCycle_log (st : CoordState) (penv : Nat → BlockReader) (denv : BlockReader)
    (cfg : CalibCfg) :
    (runCycle st penv denv cfg).2.2 = (async_update_data st penv denv cfg).2.2 := by
  unfold runCycle
  rcases ha : async_update_data st penv denv cfg with ⟨res, st1, log⟩
  cases res with
  | error e => rfl
  | ok snap => rfl

/-- With the latch unset, `_read_device_info` always issues the
identification-block read, whatever the transport answers. -/
theorem read_device_info_requested (st : CoordState) (denv : BlockReader)
    (hdi : st.deviceInfoRead = false) :
    (read_device_info st denv).2 = some DEVICE_INFO_BLOCK := by
  unfold read_device_info
  rw [if_neg (by rw [hdi]; exact Bool.false_ne_true)]
  cases denv DEVICE_INFO_BLOCK with
  | error e => rfl
  | ok values => cases values with
    | nil => rfl
    | cons v0 vrest => rfl

/-- With the latch unset, `_read_device_info` always sets the latch,
also on failure. -/
theorem read_device_info_latch (st : CoordState) (denv : BlockReader)
    (hdi : st.deviceInfoRead = false) :
    (read_device_info st denv).1.deviceInfoRead = true := by
  unfold read_device_info
  rw [if_neg (by rw [hdi]; exact Bool.false_ne_true)]
  cases denv DEVICE_INFO_BLOCK with
  | error e => rfl
  | ok values => cases values with
    | nil => rfl
    | cons v0 vrest => rfl

/- ------------------------------------------------------------------ -/
/- Claim theorems                                                      -/
/- ------------------------------------------------------------------ -/

/-- C1 (bug witness): the per-connection loop parses each read on its
own and discards the bytes of an incomplete trailing frame, so a valid
16-byte frame split into two reads of 8 bytes yields no frame at all,
although decoding the undivided stream yields exactly that frame. -/
theorem c1_split_frame_dropped :
    handleClientFrames [(build_v5_ack 66 1 0).take 8, (build_v5_ack 66 1 0).drop 8] = [] ∧
    parse_v5_frames ((build_v5_ack 66 1 0).take 8 ++ (build_v5_ack 66 1 0).drop 8) =
      [(66, 1, [0x01, 0x00])] := by decide

/-- C2 (counterexample): corrupting one byte of a valid frame — here the
low length byte, set to 0xFF — can make the claimed frame size extend
past the end of the buffer, and then the scan stops at once: the valid
frame appended after the corrupted one is not returned, although it
decodes on its own. -/
theorem c2_resync_counterexample :
    parse_v5_frames ((build_v5_ack 66 1 0).set 1 0xFF ++ build_v5_ack 71 1 0) = [] ∧
    parse_v5_frames (build_v5_ack 71 1 0) = [(71, 1, [0x01, 0x00])] := by decide

/-- C2 (amended): when the scanner finds a start marker whose candidate
frame is complete in the buffer but fails the end-marker or checksum
check, it resumes scanning exactly one byte past that start marker, so
no later bytes are skipped; when instead the (possibly corrupted) length
field makes the candidate extend past the end of the buffer, decoding
stops and returns no further frames from this buffer. -/
theorem c2_amended_resync_one_byte (data : List Nat) (pos s frameSize : Nat)
    (hfind : findStart data pos = some s)
    (hmin : s + MIN_FRAME_SIZE ≤ data.length)
    (hfs : frameSize = 1 + 2 + read16LE data (s + 1) + 1 + 1) :
    (data.length < s + frameSize → parseFrom data pos = []) ∧
    (s + frameSize ≤ data.length →
      (byteAt ((data.drop s).take frameSize) (frameSize - 1) ≠ V5_END ∨
        byteAt ((data.drop s).take frameSize) (frameSize - 2) ≠
          (((data.drop s).take frameSize).take (frameSize - 2)).sum % 256) →
      parseFrom data pos = parseFrom data (s + 1)) := by
  subst hfs
  have hps : pos ≤ s := findStart_ge hfind
  have hpos : pos < data.length := by
    have : MIN_FRAME_SIZE = 14 := rfl
    omega
  constructor
  · intro hover
    unfold parseFrom
    simp only [parseLoop, if_pos hpos, hfind]
    rw [if_neg (by omega : ¬ data.length < s + MIN_FRAME_SIZE)]
    rw [if_pos hover]
  · intro hfit hbad
    unfold parseFrom
    simp only [parseLoop, if_pos hpos, hfind]
    rw [if_neg (by omega : ¬ data.length < s + MIN_FRAME_SIZE)]
    rw [if_neg (by omega : ¬ data.length <
      s + (1 + 2 + read16LE data (s + 1) + 1 + 1))]
    by_cases hend : byteAt ((data.drop s).take (1 + 2 + read16LE data (s + 1) + 1 + 1))
        (1 + 2 + read16LE data (s + 1) + 1 + 1 - 1) ≠ V5_END
    · rw [if_pos hend]
      exact (parseLoop_fuel data data.length (data.length + 1) (s + 1)
        (by omega) (by omega)).trans (by simp only [parseLoop])
    · rcases hbad with h | hcs
      · exact absurd h hend
      · rw [if_neg hend, if_pos hcs]
        exact (parseLoop_fuel data data.length (data.length + 1) (s + 1)
          (by omega) (by omega)).trans (by simp only [parseLoop])

/-- Witness for the amended C2: a frame whose checksum byte is zeroed
makes the scan resume one byte in, and the following valid frame is
still decoded. -/
theorem c2_amended_resync_one_byte_witness :
    parseFrom ((build_v5_ack 66 1 0).set 14 0 ++ build_v5_ack 71 1 0) 0 =
      parseFrom ((build_v5_ack 66 1 0).set 14 0 ++ build_v5_ack 71 1 0) 1 ∧
    parseFrom ((build_v5_ack 66 1 0).set 14 0 ++ build_v5_ack 71 1 0) 1 =
      [(71, 1, [0x01, 0x00])] := by
  constructor
  · exact (c2_amended_resync_one_byte _ 0 0 16 (by decide) (by decide)
      (by decide)).2 (by decide) (Or.inr (by decide))
  · decide

/-- C3: for every frame type, 32-bit logger serial and 16-bit sequence
number, decoding the acknowledgement built by `_build_v5_ack` yields
exactly one valid frame carrying the same frame type and logger serial
(so checksum and end marker pass), and its control-code field at offsets
3-4 (little-endian) reads 0x1010. -/
theorem c3_ack_roundtrip (t s q : Nat) (ht : t < 256) (hs : s < 4294967296)
    (hq : q < 65536) :
    parse_v5_frames (build_v5_ack t s q) = [(t, s, [0x01, 0x00])] ∧
    read16LE (build_v5_ack t s q) 3 = 0x1010 := by
  constructor
  · simp [build_v5_ack, parse_v5_frames, parseFrom, parseLoop, findStart, findByte,
      byteAt, read16LE, read32LE, V5_START, V5_END, MIN_FRAME_SIZE, HEADER_SIZE]
    omega
  · simp [build_v5_ack, read16LE, byteAt]

/-- Witness for C3 at frame type 0x42, serial 1, sequence 5. -/
theorem c3_ack_roundtrip_witness :
    parse_v5_frames (build_v5_ack 66 1 5) = [(66, 1, [0x01, 0x00])] ∧
    read16LE (build_v5_ack 66 1 5) 3 = 0x1010 :=
  c3_ack_roundtrip 66 1 5 (by decide) (by decide) (by decide)

/-- C4: for every data-report payload whose embedded Modbus envelope has
function code 3 or 4 and carries `bc / 2` big-endian 16-bit values, the
extracted register map assigns those values to consecutive addresses
from a start address that is 59 when the value count is at least 50, 150
when it is between 40 and 49, and 59 below 40. -/
theorem c4_start_address_heuristic (pre : List Nat) (sl fn bc : Nat)
    (rest : List Nat) (hpre : pre.length = 15) (hfn : fn = 3 ∨ fn = 4)
    (hbc : bc ≤ rest.length) (h2 : 2 ≤ rest.length) (start : Nat)
    (hstart : start = if 50 ≤ bc / 2 then 59 else if 40 ≤ bc / 2 then 150 else 59) :
    ∀ a, extract_registers_from_payload (pre ++ sl :: fn :: bc :: rest) a =
      if start ≤ a ∧ a < start + bc / 2 then some (read16BE rest (2 * (a - start)))
      else none := by
  intro a
  have hL : (pre ++ sl :: fn :: bc :: rest).length = 18 + rest.length := by
    simp only [List.length_append, List.length_cons, hpre]
    omega
  have hdrop : (pre ++ sl :: fn :: bc :: rest).drop 15 = sl :: fn :: bc :: rest := by
    rw [← hpre, List.drop_left]
  unfold extract_registers_from_payload
  rw [if_neg (by rw [hL]; omega)]
  rw [hdrop]
  rw [if_neg (by simp only [List.length_cons]; omega)]
  rw [if_neg (by
    rw [show byteAt (sl :: fn :: bc :: rest) 1 = fn from rfl]
    rcases hfn with h | h <;> rw [h] <;> simp)]
  rw [show byteAt (sl :: fn :: bc :: rest) 2 = bc from rfl]
  rw [show (sl :: fn :: bc :: rest).drop 3 = rest from rfl]
  rw [if_neg (by rw [List.length_take]; omega)]
  rw [insertWordsBE_lookup]
  have hsame : (if 90 ≤ bc / 2 then 59 else if 50 ≤ bc / 2 then 59
      else if 40 ≤ bc / 2 then 150 else 59) = start := by
    rw [hstart]; split_ifs <;> omega
  rw [hsame]
  by_cases hin : start ≤ a ∧ a < start + bc / 2
  · rw [if_pos hin, if_pos hin]
    unfold read16BE
    rw [byteAt_take rest bc (2 * (a - start)) (by omega),
      byteAt_take rest bc (2 * (a - start) + 1) (by omega)]
  · rw [if_neg hin, if_neg hin]
    rfl

/-- Witness for C4, the spec's Scenario E: a payload implying 55
registers (byte count 110) is extracted starting at address 59, not
150. -/
theorem c4_start_address_heuristic_witness :
    extract_registers_from_payload
      (List.replicate 15 0 ++ 1 :: 4 :: 110 :: List.replicate 110 7) 59 =
      some (read16BE (List.replicate 110 7) 0) ∧
    extract_registers_from_payload
      (List.replicate 15 0 ++ 1 :: 4 :: 110 :: List.replicate 110 7) 150 = none := by
  have h := c4_start_address_heuristic (List.replicate 15 0) 1 4 110
    (List.replicate 110 7) (by decide) (Or.inr rfl) (by decide) (by decide)
    59 (by decide)
  exact ⟨(h 59).trans (by decide), (h 150).trans (by decide)⟩

/-- C7: for every register map, including every partial map with
arbitrary addresses missing, the register decoder returns a telemetry
snapshot (it is a total function by construction): every single-register
entry whose address is absent, every 32-bit composite missing either
register, and every derived output (daily/total CO2 via registers
108 / 96-97, battery cycles and health via 74-75) whose prerequisites
are absent is simply omitted from the snapshot; no absence fails the
decode. -/
theorem c7_decoder_tolerates_partial_maps (cfg : CalibCfg) (regs : RegMap) :
    (∀ g ∈ SINGLE_GROUPS, ∀ e ∈ g, ∀ n, e.name = some n → regs e.reg = none →
      parse cfg regs n = none) ∧
    (∀ e ∈ REGISTERS_BATTERY, ∀ n, e.name = some n → regs e.reg = none →
      parse cfg regs n = none) ∧
    (∀ t ∈ REGISTERS_ENERGY_TOTAL, regs t.low = none ∨ regs t.high = none →
      parse cfg regs t.name = none) ∧
    (regs 108 = none → parse cfg regs "Daily CO2 Saved" = none) ∧
    (regs 96 = none ∨ regs 97 = none → parse cfg regs "Total CO2 Saved" = none) ∧
    (regs 74 = none ∨ regs 75 = none →
      parse cfg regs "Battery Cycles" = none ∧ parse cfg regs "Battery Health" = none) := by
  refine ⟨?_, ?_, ?_, ?_, ?_, ?_⟩
  · -- single-register definitions
    intro g hg e he n hn habs
    apply parse_none_of
    · intro g2 hg2 e2 he2 hn2
      have hr : e.reg = e2.reg :=
        singles_name_unique g hg e he g2 hg2 e2 he2 (by rw [hn, hn2]) (by rw [hn]; simp)
      rw [← hr]; exact habs
    · intro e2 he2 hn2
      rcases singles_battery_disjoint g hg e he e2 he2 with h | h
      · rw [hn] at h; exact absurd h (by simp)
      · rw [hn, hn2] at h; exact absurd rfl h
    · intro t ht htn
      have := singles_totals_disjoint g hg e he t ht
      rw [hn, htn] at this
      exact absurd rfl this
    · intro hc; rw [hc] at hn; exact absurd hn (singles_not_derived g hg e he).1
    · intro hc; rw [hc] at hn; exact absurd hn (singles_not_derived g hg e he).2.1
    · intro hc; rw [hc] at hn; exact absurd hn (singles_not_derived g hg e he).2.2.1
    · intro hc; rw [hc] at hn; exact absurd hn (singles_not_derived g hg e he).2.2.2
  · -- battery definitions
    intro e he n hn habs
    apply parse_none_of
    · intro g2 hg2 e2 he2 hn2
      rcases singles_battery_disjoint g2 hg2 e2 he2 e he with h | h
      · rw [hn2] at h; exact absurd h (by simp)
      · rw [hn, hn2] at h; exact absurd rfl h
    · intro e2 he2 hn2
      have hr : e.reg = e2.reg :=
        battery_name_unique e he e2 he2 (by rw [hn, hn2]) (by rw [hn]; simp)
      rw [← hr]; exact habs
    · intro t ht htn
      have := battery_totals_disjoint e he t ht
      rw [hn, htn] at this
      exact absurd rfl this
    · intro hc; rw [hc] at hn; exact absurd hn (battery_not_derived e he).1
    · intro hc; rw [hc] at hn; exact absurd hn (battery_not_derived e he).2.1
    · intro hc; rw [hc] at hn; exact absurd hn (battery_not_derived e he).2.2.1
    · intro hc; rw [hc] at hn; exact absurd hn (battery_not_derived e he).2.2.2
  · -- 32-bit composites
    intro t ht hmiss
    rcases totals_not_derived t ht with ⟨d1, d2, d3, d4⟩
    rw [parse_eq, applyBatteryCycles_ne cfg _ d3 d4, applyCO2_ne cfg _ d1 d2]
    exact stages4_total_none regs t ht hmiss
  · -- daily CO2
    intro h108
    have hdpv : translateGridConnected (translateRunningState (applyTotals regs
        (applyBattery regs (SINGLE_GROUPS.foldl (fun d g => applyGroup g regs d)
          emptySnapshot)))) "Daily PV Energy" = none := by
      apply stages4_none
      · intro g hg e he hn; rw [name_determines_daily_pv g hg e he hn]; exact h108
      · intro e he hn
        exact absurd hn
          ((by decide : ∀ x ∈ REGISTERS_BATTERY, x.name ≠ some "Daily PV Energy") e he)
      · intro t ht htn
        exact absurd htn
          ((by decide : ∀ x ∈ REGISTERS_ENERGY_TOTAL, x.name ≠ "Daily PV Energy") t ht)
    have hdc := stages4_nontable_none regs "Daily CO2 Saved"
      (fun g hg e he => (singles_not_derived g hg e he).1)
      (fun e he => (battery_not_derived e he).1)
      (fun t ht => (totals_not_derived t ht).1)
    rw [parse_eq, applyBatteryCycles_ne cfg _ (by decide) (by decide),
      applyCO2_daily_skip cfg _ hdpv]
    exact hdc
  · -- total CO2
    intro hmiss
    have htpv := stages4_total_none regs ⟨96, 97, "Total PV Energy", 0.1, 1⟩
      (by unfold REGISTERS_ENERGY_TOTAL; exact List.mem_cons_self _ _) hmiss
    have htc := stages4_nontable_none regs "Total CO2 Saved"
      (fun g hg e he => (singles_not_derived g hg e he).2.1)
      (fun e he => (battery_not_derived e he).2.1)
      (fun t ht => (totals_not_derived t ht).2.1)
    rw [parse_eq, applyBatteryCycles_ne cfg _ (by decide) (by decide),
      applyCO2_total_skip cfg _ htpv]
    exact htc
  · -- battery cycles and health
    intro hmiss
    have htbd := stages4_total_none regs
      ⟨74, 75, "Total Battery Discharge Energy", 0.1, 1⟩
      (by unfold REGISTERS_ENERGY_TOTAL
          exact List.mem_cons_of_mem _ (List.mem_cons_of_mem _ (List.mem_cons_self _ _)))
      hmiss
    have hd5tbd : applyCO2 cfg (translateGridConnected (translateRunningState
        (applyTotals regs (applyBattery regs (SINGLE_GROUPS.foldl
          (fun d g => applyGroup g regs d) emptySnapshot)))))
        "Total Battery Discharge Energy" = none :=
      (applyCO2_ne cfg _ (by decide) (by decide)).trans htbd
    have hbc := stages4_nontable_none regs "Battery Cycles"
      (fun g hg e he => (singles_not_derived g hg e he).2.2.1)
      (fun e he => (battery_not_derived e he).2.2.1)
      (fun t ht => (totals_not_derived t ht).2.2.1)
    have hbh := stages4_nontable_none regs "Battery Health"
      (fun g hg e he => (singles_not_derived g hg e he).2.2.2)
      (fun e he => (battery_not_derived e he).2.2.2)
      (fun t ht => (totals_not_derived t ht).2.2.2)
    rw [parse_eq, applyBatteryCycles_skip cfg _ hd5tbd]
    constructor
    · exact (applyCO2_ne cfg _ (by decide) (by decide)).trans hbc
    · exact (applyCO2_ne cfg _ (by decide) (by decide)).trans hbh

/-- Witness for C7: on the empty register map the battery-cycle outputs
are omitted. -/
theorem c7_decoder_tolerates_partial_maps_witness :
    parse ⟨0.256, 5.12, 6000⟩ emptyRegs "Battery Cycles" = none ∧
    parse ⟨0.256, 5.12, 6000⟩ emptyRegs "Battery Health" = none :=
  (c7_decoder_tolerates_partial_maps ⟨0.256, 5.12, 6000⟩ emptyRegs).2.2.2.2.2
    (Or.inl rfl)

/-- C8: for every 32-bit composite definition in the total-energy table
whose low and high registers are both present in the map, the decoded
value is the unsigned combination `(high << 16) | low` multiplied by
the definition's scale and rounded to its precision; in particular, for
registers 96/97 (Total PV, scale 0.1) the decode is
`round(((high << 16) | low) * 0.1, 1)` and `"Total CO2 Saved"` is that
value times the CO2 factor, rounded to 1 decimal. -/
theorem c8_total_unsigned_combination (cfg : CalibCfg) (regs : RegMap) :
    (∀ t ∈ REGISTERS_ENERGY_TOTAL, ∀ low high,
      regs t.low = some low → regs t.high = some high →
      parse cfg regs t.name =
        some (.num (pyRound t.precision ((((high <<< 16) ||| low : Nat) : Rat) * t.scale)))) ∧
    (∀ low high, regs 96 = some low → regs 97 = some high →
      parse cfg regs "Total PV Energy" =
        some (.num (pyRound 1 ((((high <<< 16) ||| low : Nat) : Rat) * 0.1))) ∧
      parse cfg regs "Total CO2 Saved" =
        some (.num (pyRound 1
          (pyRound 1 ((((high <<< 16) ||| low : Nat) : Rat) * 0.1) * cfg.co2Factor)))) := by
  constructor
  · intro t ht low high hl hh
    rw [parse_eq]
    rcases totals_not_derived t ht with ⟨hd1, hd2, hd3, hd4⟩
    rw [applyBatteryCycles_ne cfg _ hd3 hd4, applyCO2_ne cfg _ hd1 hd2]
    rcases totals_not_translated t ht with ⟨ht1, ht2⟩
    rw [translateGridConnected_ne _ ht2, translateRunningState_ne _ ht1]
    unfold applyTotals
    exact foldTotals_write regs REGISTERS_ENERGY_TOTAL _ t ht totals_name_nodup
      low high hl hh
  · intro low high hl hh
    have hd4 : translateGridConnected (translateRunningState (applyTotals regs
        (applyBattery regs (SINGLE_GROUPS.foldl (fun d g => applyGroup g regs d)
          emptySnapshot)))) "Total PV Energy" =
        some (.num (pyRound 1 ((((high <<< 16) ||| low : Nat) : Rat) * 0.1))) := by
      rw [translateGridConnected_ne _ (by decide), translateRunningState_ne _ (by decide)]
      exact applyTotals_total_pv regs _ low high hl hh
    rcases applyCO2_total cfg _ _ hd4 with ⟨hco2, htpv⟩
    constructor
    · rw [parse_eq, applyBatteryCycles_ne cfg _ (by decide) (by decide)]
      exact htpv
    · rw [parse_eq, applyBatteryCycles_ne cfg _ (by decide) (by decide)]
      exact hco2

/-- Witness for C8: the spec's Scenario C (registers 96/97 low=1000,
high=0 with CO2 factor 0.256 decode to Total PV Energy 100.0 and Total
CO2 Saved 25.6), and a second composite (registers 74/75, low=400,
high=0) decoding to Total Battery Discharge Energy 40.0 through the
universally quantified part. -/
theorem c8_total_unsigned_combination_witness :
    parse ⟨0.256, 5.12, 6000⟩
      (fun a => if a = 96 then some 1000 else if a = 97 then some 0 else none)
      "Total PV Energy" = some (.num 100) ∧
    parse ⟨0.256, 5.12, 6000⟩
      (fun a => if a = 96 then some 1000 else if a = 97 then some 0 else none)
      "Total CO2 Saved" = some (.num (128 / 5)) ∧
    parse ⟨0.256, 5.12, 6000⟩
      (fun a => if a = 74 then some 400 else if a = 75 then some 0 else none)
      "Total Battery Discharge Energy" = some (.num 40) := by
  have h2 := (c8_total_unsigned_combination ⟨0.256, 5.12, 6000⟩
    (fun a => if a = 96 then some 1000 else if a = 97 then some 0 else none)).2
    1000 0 (by decide) (by decide)
  have h1 := (c8_total_unsigned_combination ⟨0.256, 5.12, 6000⟩
    (fun a => if a = 74 then some 400 else if a = 75 then some 0 else none)).1
    ⟨74, 75, "Total Battery Discharge Energy", 0.1, 1⟩
    (by unfold REGISTERS_ENERGY_TOTAL
        exact List.mem_cons_of_mem _ (List.mem_cons_of_mem _ (List.mem_cons_self _ _)))
    400 0 (by decide) (by decide)
  refine ⟨h2.1.trans ?_, h2.2.trans ?_, h1.trans ?_⟩
  · norm_num [pyRound, roundHalfEven, ratFloor]
  · norm_num [pyRound, roundHalfEven, ratFloor]
  · norm_num [pyRound, roundHalfEven, ratFloor]

/-- C5: when the pushed-register slot holds a map `m`, the refresh
returns exactly the decode of `m`, clears the slot, and does not take
the polling path (the result is the same for every transport
environment, so pushed and polled registers are never merged); when the
slot is empty the refresh polls; and a pushed map is consumed at most
once: after the cycle the slot is empty, so a second cycle without a new
push polls. -/
theorem c5_push_priority_single_use (st : CoordState) (penv : Nat → BlockReader)
    (denv : BlockReader) (cfg : CalibCfg) :
    (∀ m, st.pushedRegisters = some m →
      async_update_data st penv denv cfg =
        (.ok (parse cfg m), { st with pushedRegisters := none },
         ⟨false, [], 0, none⟩)) ∧
    (st.pushedRegisters = none →
      (async_update_data st penv denv cfg).2.2.polled = true) ∧
    (∀ m, st.pushedRegisters = some m →
      (runCycle st penv denv cfg).2.1.pushedRegisters = none ∧
      (runCycle (runCycle st penv denv cfg).2.1 penv denv cfg).2.2.polled = true) := by
  refine ⟨fun m hm => async_push st penv denv cfg m hm,
    fun hm => async_polled st penv denv cfg hm, fun m hm => ?_⟩
  rw [runCycle_push st penv denv cfg m hm]
  constructor
  · rfl
  · rw [runCycle_log]
    exact async_polled _ penv denv cfg rfl

/-- Witness for C5: a pushed constant map is decoded, the slot cleared,
and the polling environment never consulted. -/
theorem c5_push_priority_single_use_witness :
    async_update_data (receive_pushed_data initState (fun _ => some 5))
        (fun _ _ => .error 9) (fun _ => .error 9) ⟨0.256, 5.12, 6000⟩ =
      (.ok (parse ⟨0.256, 5.12, 6000⟩ (fun _ => some 5)),
       { receive_pushed_data initState (fun _ => some 5) with pushedRegisters := none },
       ⟨false, [], 0, none⟩) :=
  (c5_push_priority_single_use (receive_pushed_data initState (fun _ => some 5))
    (fun _ _ => .error 9) (fun _ => .error 9) ⟨0.256, 5.12, 6000⟩).1
    (fun _ => some 5) rfl

/-- C6: a polling cycle makes at most 3 attempts with a 2-second sleep
between failed attempts; the first attempt that completes all blocks
ends the cycle with its merged map and no further attempts; three
failures surface the last error, and at the coordinator level such a
failure is a hard error except on the very first cycle (no prior data),
where an empty result is substituted. -/
theorem c6_retry_backoff_policy (penv : Nat → BlockReader) (st : CoordState)
    (denv : BlockReader) (cfg : CalibCfg) :
    ((read_registers penv).2.2 ≤ 3) ∧
    (∀ m, attemptRead (penv 1) = .ok m → read_registers penv = (.ok m, [], 1)) ∧
    (∀ e1 m, attemptRead (penv 1) = .error e1 → attemptRead (penv 2) = .ok m →
      read_registers penv = (.ok m, [2], 2)) ∧
    (∀ e1 e2 m, attemptRead (penv 1) = .error e1 → attemptRead (penv 2) = .error e2 →
      attemptRead (penv 3) = .ok m → read_registers penv = (.ok m, [2, 2], 3)) ∧
    (∀ e1 e2 e3, attemptRead (penv 1) = .error e1 → attemptRead (penv 2) = .error e2 →
      attemptRead (penv 3) = .error e3 → read_registers penv = (.error e3, [2, 2], 3)) ∧
    (st.pushedRegisters = none → st.data = none →
      ∀ e, (read_registers penv).1 = .error e →
      (async_update_data st penv denv cfg).1 = .ok emptySnapshot) ∧
    (∀ d, st.pushedRegisters = none → st.data = some d →
      ∀ e, (read_registers penv).1 = .error e →
      (async_update_data st penv denv cfg).1 = .error ()) := by
  refine ⟨?_, ?_, ?_, ?_, ?_, ?_, ?_⟩
  · unfold read_registers
    cases attemptRead (penv 1) with
    | ok m => dsimp only; omega
    | error e1 =>
      cases attemptRead (penv 2) with
      | ok m => dsimp only; omega
      | error e2 =>
        cases attemptRead (penv 3) with
        | ok m => dsimp only; omega
        | error e3 => dsimp only; omega
  · intro m h1
    unfold read_registers
    rw [h1]
  · intro e1 m h1 h2
    unfold read_registers
    rw [h1, h2]
  · intro e1 e2 m h1 h2 h3
    unfold read_registers
    rw [h1, h2, h3]
  · intro e1 e2 e3 h1 h2 h3
    unfold read_registers
    rw [h1, h2, h3]
  · intro hpush hdata e herr
    unfold async_update_data
    rw [hpush]
    dsimp only
    rcases hr : read_registers penv with ⟨res, sleeps, used⟩
    rw [hr] at herr
    dsimp only at herr
    subst herr
    dsimp only
    rw [hdata]
  · intro d hpush hdata e herr
    unfold async_update_data
    rw [hpush]
    dsimp only
    rcases hr : read_registers penv with ⟨res, sleeps, used⟩
    rw [hr] at herr
    dsimp only at herr
    subst herr
    dsimp only
    rw [hdata]

/-- Witness for C6: a transport that always fails exhausts three
attempts with two 2-second sleeps and raises the last error, and the
very first coordinator cycle substitutes the empty snapshot. -/
theorem c6_retry_backoff_policy_witness :
    read_registers (fun _ _ => .error 9) = (.error 9, [2, 2], 3) ∧
    (async_update_data initState (fun _ _ => .error 9) (fun _ => .error 9)
        ⟨0.256, 5.12, 6000⟩).1 = .ok emptySnapshot := by
  constructor
  · exact (c6_retry_backoff_policy (fun _ _ => .error 9) initState
      (fun _ => .error 9) ⟨0.256, 5.12, 6000⟩).2.2.2.2.1 9 9 9 rfl rfl rfl
  · exact (c6_retry_backoff_policy (fun _ _ => .error 9) initState
      (fun _ => .error 9) ⟨0.256, 5.12, 6000⟩).2.2.2.2.2.1 rfl rfl 9 rfl

/-- C9 (counterexample): on a fresh coordinator, a successful *push*
cycle — the first successful cycle of the session — issues no
device-identity read and leaves the read-once latch unset, refuting
"issued on the first successful polling/push cycle". -/
theorem c9_push_cycle_no_identity_read :
    ((runCycle (receive_pushed_data initState (fun _ => some 0)) (fun _ _ => .error 7)
        (fun _ => .error 7) ⟨0.256, 5.12, 6000⟩).1.isOk = true) ∧
    (runCycle (receive_pushed_data initState (fun _ => some 0)) (fun _ _ => .error 7)
        (fun _ => .error 7) ⟨0.256, 5.12, 6000⟩).2.2.deviceInfoRequested = none ∧
    (runCycle (receive_pushed_data initState (fun _ => some 0)) (fun _ _ => .error 7)
        (fun _ => .error 7) ⟨0.256, 5.12, 6000⟩).2.1.deviceInfoRead = false :=
  ⟨rfl, rfl, rfl⟩

/-- C9 (amended): the device-identity read is issued exactly once per
coordinator session, on the first successful *polling* cycle — a push
cycle never issues it, even when it is the first successful cycle.  The
read requests registers 0-15; byte 0 maps to a device-type name
(defaulting to `"Type <code>"` for unknown codes) and registers 13-15
format the firmware version; any failure is swallowed, leaving the
identity fields unchanged, and the latch is set even on failure so the
read is never issued again. -/
theorem c9_amended_identity_read_once (st : CoordState) (penv : Nat → BlockReader)
    (denv : BlockReader) (cfg : CalibCfg) :
    DEVICE_INFO_BLOCK = (0, 16) ∧
    (∀ m, st.pushedRegisters = some m →
      (async_update_data st penv denv cfg).2.2.deviceInfoRequested = none ∧
      (async_update_data st penv denv cfg).2.1.deviceInfoRead = st.deviceInfoRead) ∧
    (st.pushedRegisters = none → st.deviceInfoRead = false →
      ∀ regs sleeps used, read_registers penv = (.ok regs, sleeps, used) →
      (async_update_data st penv denv cfg).2.2.deviceInfoRequested = some (0, 16) ∧
      (async_update_data st penv denv cfg).2.1.deviceInfoRead = true) ∧
    (st.deviceInfoRead = true →
      (async_update_data st penv denv cfg).2.2.deviceInfoRequested = none ∧
      (async_update_data st penv denv cfg).2.1.deviceInfoRead = true) ∧
    (st.deviceInfoRead = false → ∀ e, denv DEVICE_INFO_BLOCK = .error e →
      read_device_info st denv =
        ({ st with deviceInfoRead := true }, some DEVICE_INFO_BLOCK)) ∧
    (st.deviceInfoRead = false → ∀ v0 vrest, denv DEVICE_INFO_BLOCK = .ok (v0 :: vrest) →
      15 < (v0 :: vrest).length →
      read_device_info st denv =
        ({ st with
            deviceType := deviceTypeName v0,
            firmwareVersion := some (toString ((v0 :: vrest).getD 13 0) ++ "." ++
              toString ((v0 :: vrest).getD 14 0) ++ "." ++
              toString ((v0 :: vrest).getD 15 0)),
            deviceInfoRead := true }, some DEVICE_INFO_BLOCK)) ∧
    (∀ code, DEVICE_TYPES.lookup code = none →
      deviceTypeName code = "Type " ++ toString code) := by
  refine ⟨rfl, ?_, ?_, ?_, ?_, ?_, ?_⟩
  · intro m hm
    rw [async_push st penv denv cfg m hm]
    exact ⟨rfl, rfl⟩
  · intro hpush hdi regs sleeps used hr
    unfold async_update_data
    rw [hpush]
    dsimp only
    rw [hr]
    dsimp only
    rw [if_neg (by rw [hdi]; exact Bool.false_ne_true)]
    exact ⟨read_device_info_requested st denv hdi, read_device_info_latch st denv hdi⟩
  · intro hdi
    cases hp : st.pushedRegisters with
    | some m =>
      rw [async_push st penv denv cfg m hp]
      exact ⟨rfl, hdi⟩
    | none =>
      unfold async_update_data
      rw [hp]
      dsimp only
      rcases hr : read_registers penv with ⟨res, sleeps, used⟩
      cases res with
      | error e =>
        dsimp only
        cases st.data with
        | none => exact ⟨rfl, hdi⟩
        | some d => exact ⟨rfl, hdi⟩
      | ok regs =>
        dsimp only
        rw [if_pos hdi]
        exact ⟨rfl, hdi⟩
  · intro hdi e he
    unfold read_device_info
    rw [if_neg (by rw [hdi]; exact Bool.false_ne_true), he]
  · intro hdi v0 vrest he hlen
    unfold read_device_info
    rw [if_neg (by rw [hdi]; exact Bool.false_ne_true), he]
    dsimp only
    rw [if_pos hlen]
  · intro code hc
    unfold deviceTypeName
    rw [hc]

/-- Witness for the amended C9: a failing identity read on a fresh
coordinator leaves the identity fields as constructed and sets the
latch. -/
theorem c9_amended_identity_read_once_witness :
    read_device_info initState (fun _ => .error 7) =
      ({ initState with deviceInfoRead := true }, some DEVICE_INFO_BLOCK) :=
  (c9_amended_identity_read_once initState (fun _ _ => .error 7) (fun _ => .error 7)
    ⟨0.256, 5.12, 6000⟩).2.2.2.2.1 rfl 7 rfl

/-- C10: for every raw 16-bit value, `_signed` returns the value itself
below 32768 and the value minus 65536 otherwise; at the boundaries,
32768 maps to -32768 and 65535 to -1. -/
theorem c10_signed_conversion (v : Nat) (hv : v ≤ 65535) :
    signed v = (if v < 32768 then (v : Int) else (v : Int) - 65536) ∧
    signed 32768 = -32768 ∧ signed 65535 = -1 := by
  refine ⟨?_, ?_, ?_⟩
  · unfold signed
    split_ifs <;> omega
  · norm_num [signed]
  · norm_num [signed]

/-- Witness for C10 at 40000. -/
theorem c10_signed_conversion_witness :
    signed 40000 =
      (if (40000 : Nat) < 32768 then ((40000 : Nat) : Int)
       else ((40000 : Nat) : Int) - 65536) :=
  (c10_signed_conversion 40000 (by decide)).1

end SolarmanDeye
